import Mathlib

/-!
Verification development for the osu! rule-set engine (`app/rulesets/osu/ruleset.go`,
given as `src/unnamed/part_000`) of the danser-go repository.

Conventions of the embedding:
* Go `int64` / `int` values are modelled as `Int` (overflow plays no role here),
  object ordinals as `Nat`.
* Go `float64` time stamps and the accuracy/ratio arithmetic are modelled over `ℚ`
  (times as `Int` milliseconds); all comparisons in the embedded code are exact.
* The per-player hit status of an active object (`HitObject.IsHit(player)`) is a
  field `hitBy : Nat → Bool` of `ActiveObj`; Go pointer identity of objects is
  modelled by their ordinal `number`, which is unique in a beatmap.
* List indexing mirrors Go slice indexing; `List.getD` is only ever applied at
  indices that are in range in the modelled scenarios (Go would panic otherwise),
  except where `Option` is used explicitly to model the panic (`IsPerfect`).
-/

namespace Danser

/-- Modelled from the spec: the `HitResult` bit-flag enumeration of the
rulesets/osu package is not under `src/`; the spec describes a fixed closed set
of outcomes `{Miss, Hit50, Hit100, Hit300, PositionalMiss, Ignore, SliderStart, …}`
plus orthogonal bonus tags `{GekiAddition, KatuAddition, MuAddition}` combinable
with a base outcome, realised as distinct bits of one integer. -/
def Ignore : Nat := 1

/-- Slider miss flag (see `Ignore` for provenance). -/
def SliderMiss : Nat := 2

/-- Miss outcome flag. -/
def Miss : Nat := 4

/-- Fifty outcome flag. -/
def Hit50 : Nat := 8

/-- Hundred outcome flag. -/
def Hit100 : Nat := 16

/-- Three-hundred (best) outcome flag. -/
def Hit300 : Nat := 32

/-- Slider start outcome flag. -/
def SliderStart : Nat := 64

/-- Slider point outcome flag. -/
def SliderPoint : Nat := 128

/-- Slider repeat outcome flag. -/
def SliderRepeat : Nat := 256

/-- Slider end outcome flag. -/
def SliderEnd : Nat := 512

/-- Positional miss outcome flag. -/
def PositionalMiss : Nat := 1024

/-- Geki bonus tag. -/
def GekiAddition : Nat := 2048

/-- Katu bonus tag. -/
def KatuAddition : Nat := 4096

/-- Mu bonus tag. -/
def MuAddition : Nat := 8192

/-- Mask of the three base hit outcomes. -/
def BaseHits : Nat := Hit50 ||| Hit100 ||| Hit300

/-- Mask of the base hit outcomes together with `Miss` (the counting outcomes). -/
def BaseHitsM : Nat := BaseHits ||| Miss

/-- Modelled from the spec: the numeric score contribution of an outcome
(`HitResult.ScoreValue` is not under `src/`); the spec fixes the contributions
50/100/300 for the base outcomes and 0 otherwise (`maxOutcomeValue = 300`). -/
def ScoreValue (result : Nat) : Int :=
  if result &&& BaseHitsM = Hit50 then 50
  else if result &&& BaseHitsM = Hit100 then 100
  else if result &&& BaseHitsM = Hit300 then 300
  else 0

/-- The constant `Tolerance2B` of ruleset.go (line 21). -/
def Tolerance2B : Int := 3

/-- Modelled from the spec: `difficulty.HittableRange` lives in the difficulty
package, not under `src/`; the spec only says the hittable range is a fixed
constant, reduced by a fixed constant under certain automation modifiers.
The repository value is 400 ms. -/
def HittableRange : Int := 400

/-- The letter grades, mirroring the `Grade` enumeration of ruleset.go. -/
inductive Grade where
  | D | C | B | A | S | SH | SS | SSH | NONE
deriving DecidableEq, Repr

/-- The `ClickAction` enumeration of ruleset.go. -/
inductive ClickAction where
  | Ignored | Shake | Click
deriving DecidableEq, Repr

/-- The `ComboResult` enumeration of ruleset.go (`Reset`, `Hold`, `Increase`). -/
inductive ComboResult where
  | reset | hold | increase
deriving DecidableEq, Repr

/-- The per-player modifier set; only the modifiers the embedded code inspects
are kept, as Boolean fields of the flag word `difficulty.Modifier`. -/
structure Mods where
  noFail : Bool
  easy : Bool
  hidden : Bool
  flashlight : Bool
  relax : Bool
  relax2 : Bool
deriving DecidableEq, Repr

/-- The kind of a beatmap hit object (the three `HitObject` variants). -/
inductive ObjKind where
  | circle | slider | spinner
deriving DecidableEq, Repr

/-- One object of `beatMap.HitObjects`: its timing window, new-combo flag,
stack index (the value of `GetStackIndex` for the relevant modifier set),
variant kind and, for sliders, the length of `ScorePoints`. -/
structure BMObject where
  startTime : Int
  endTime : Int
  newCombo : Bool
  stackIndex : Int
  kind : ObjKind
  scorePoints : Nat
deriving DecidableEq, Repr

/-- Default object used for the (always in range) `List.getD` lookups. -/
def defaultBMObject : BMObject :=
  { startTime := 0, endTime := 0, newCombo := false, stackIndex := 0
    kind := ObjKind.circle, scorePoints := 0 }

/-- An entry of the active set `set.processed`: the ordinal of the underlying
beatmap object and its per-player hit status (`IsHit`). -/
structure ActiveObj where
  number : Nat
  hitBy : Nat → Bool

/-- Default active object for `List.getD` lookups. -/
def defaultActiveObj : ActiveObj := { number := 0, hitBy := fun _ => false }

/-- The prefix-aggregate entry `MapTo` of ruleset.go. -/
structure MapTo where
  ncircles : Int
  nsliders : Int
  nobjects : Int
  maxCombo : Int
deriving DecidableEq, Repr

/-- Default prefix aggregate. -/
def defaultMapTo : MapTo := { ncircles := 0, nsliders := 0, nobjects := 0, maxCombo := 0 }

/-- The loop body of the `mapStats` construction in `NewOsuRuleset`
(lines 157-175): each entry copies the previous one, sliders add their score
points to the max combo and bump the slider count, circles bump the circle
count, and every object adds one to max combo and to the object count. -/
def buildMapStatsAux (prev : MapTo) : List BMObject → List MapTo
  | [] => []
  | o :: rest =>
    let m1 : MapTo :=
      match o.kind with
      | ObjKind.slider =>
          { prev with nsliders := prev.nsliders + 1
                      maxCombo := prev.maxCombo + (o.scorePoints : Int) }
      | ObjKind.circle => { prev with ncircles := prev.ncircles + 1 }
      | ObjKind.spinner => prev
    let m2 : MapTo := { m1 with maxCombo := m1.maxCombo + 1, nobjects := m1.nobjects + 1 }
    m2 :: buildMapStatsAux m2 rest

/-- The prefix-aggregate table `ruleset.mapStats` built by `NewOsuRuleset`. -/
def buildMapStats (objs : List BMObject) : List MapTo :=
  buildMapStatsAux defaultMapTo objs

/-- The per-player score sub-state `subSet` of ruleset.go.  The external
`ppv2` and `hp` collaborators are omitted (out of scope per the spec); the
score processor is represented by its observable `combo` and `score`. -/
structure SubSet where
  rawScore : Int
  accuracy : ℚ
  maxCombo : Int
  numObjects : Int
  grade : Grade
  hits : Nat → Int
  currentKatu : Int
  currentBad : Int
  gekiCount : Int
  katuCount : Int
  recoveries : Int
  combo : Int
  score : Int
  failed : Bool

/-- The initial `subSet` built in `NewOsuRuleset` (lines 229-257): accuracy 100,
grade `NONE`, empty hit histogram, and two recoveries exactly when the Easy
modifier is active. -/
def initialSubSet (mods : Mods) : SubSet :=
  { rawScore := 0, accuracy := 100, maxCombo := 0, numObjects := 0
    grade := Grade.NONE, hits := fun _ => 0, currentKatu := 0, currentBad := 0
    gekiCount := 0, katuCount := 0
    recoveries := if mods.easy = true then 2 else 0
    combo := 0, score := 0, failed := false }

/-- Per-player engine configuration: the shared beatmap object list, the
player modifier set, and whether the (single-slot) hit / fail listeners are
registered. -/
structure PCfg where
  objs : List BMObject
  mods : Mods
  hasHitListener : Bool
  hasFailListener : Bool

/-- Output of `failInternal`: the updated sub-state, whether
`hp.Increase(160, false)` was invoked, and whether the fail listener fired. -/
structure FailOut where
  state : SubSet
  increase160 : Bool
  listenerCalled : Bool

/-- The fail handler `OsuRuleSet.failInternal` (lines 612-633): immunity
modifiers discard the signal; otherwise a positive recovery budget is
consumed with a fixed health bump; otherwise the player fails, the listener
firing only if registered and the player had not already failed. -/
def failInternal (mods : Mods) (hasFailListener : Bool) (s : SubSet) : FailOut :=
  if mods.noFail = true ∨ mods.relax = true ∨ mods.relax2 = true then
    { state := s, increase160 := false, listenerCalled := false }
  else if 0 < s.recoveries then
    { state := { s with recoveries := s.recoveries - 1 }
      increase160 := true, listenerCalled := false }
  else
    { state := { s with failed := true }
      increase160 := false
      listenerCalled := hasFailListener && !s.failed }

/-- The query `OsuRuleSet.IsPerfect` (lines 667-670).  Go indexes
`mapStats[numObjects-1]`, which panics when no object has been judged or the
index is out of range; the panic is modelled as `none`. -/
def IsPerfect (mapStats : List MapTo) (s : SubSet) : Option Bool :=
  if 1 ≤ s.numObjects ∧ (s.numObjects - 1).toNat < mapStats.length then
    some (decide (s.maxCombo = (mapStats.getD (s.numObjects - 1).toNat defaultMapTo).maxCombo))
  else none

/-- The grade recomputation block of `SendResult` (lines 471-493), translated
from the source: nested conditionals over the hit histogram, with
`ratio = hits[Hit300] / numObjects` and the fifty fraction compared exactly
(Go compares `float64` quotients; the embedding compares the exact rationals). -/
def computeGradeCode (hits : Nat → Int) (numObjects : Int) (mods : Mods) : Grade :=
  let ratio : ℚ := (hits Hit300 : ℚ) / (numObjects : ℚ)
  if hits Hit300 = numObjects then
    if mods.hidden || mods.flashlight then Grade.SSH else Grade.SS
  else if ratio > 9/10 ∧ (hits Hit50 : ℚ) / (numObjects : ℚ) < 1/100 ∧ hits Miss = 0 then
    if mods.hidden || mods.flashlight then Grade.SH else Grade.S
  else if (ratio > 8/10 ∧ hits Miss = 0) ∨ ratio > 9/10 then Grade.A
  else if (ratio > 7/10 ∧ hits Miss = 0) ∨ ratio > 8/10 then Grade.B
  else if ratio > 6/10 then Grade.C
  else Grade.D

/-- The fixed-threshold grade priority function exactly as the specification
words it: all best outcomes give SS (SSH under a visibility-reducing
modifier); then ratio above 0.9 with under one percent fifties and zero
misses gives S (SH); then (ratio above 0.8 and zero misses) or ratio above
0.9 gives A; then (ratio above 0.7 and zero misses) or ratio above 0.8 gives
B; then ratio above 0.6 gives C; else D, with
ratio = best-outcome count / counted objects. -/
def gradeSpecClaim (h300 h50 hmiss numCounted : Int) (visibilityMod : Bool) : Grade :=
  let ratio : ℚ := (h300 : ℚ) / (numCounted : ℚ)
  let fifties : ℚ := (h50 : ℚ) / (numCounted : ℚ)
  if h300 = numCounted then
    if visibilityMod then Grade.SSH else Grade.SS
  else if ratio > 9/10 ∧ fifties < 1/100 ∧ hmiss = 0 then
    if visibilityMod then Grade.SH else Grade.S
  else if (ratio > 8/10 ∧ hmiss = 0) ∨ ratio > 9/10 then Grade.A
  else if (ratio > 7/10 ∧ hmiss = 0) ∨ ratio > 8/10 then Grade.B
  else if ratio > 6/10 then Grade.C
  else Grade.D

/-- Modelled from the spec: `scoreProcessor.ModifyResult` (score processors
scorev1.go / scorev2.go are not under `src/`); the spec states the two score
variants differ only in the scoring formula, not in classification, so the
judgement value itself passes through unchanged. -/
def modifyResult (result : Nat) : Nat := result

/-- Modelled from the spec: the combo bookkeeping of
`scoreProcessor.AddResult` (not under `src/`); per the spec glossary the
combo is the consecutive count of non-miss judgements: a `Reset` combo event
zeroes it, `Hold` keeps it, `Increase` adds one. -/
def addResultCombo (combo : Int) : ComboResult → Int
  | ComboResult.reset => 0
  | ComboResult.hold => combo
  | ComboResult.increase => combo + 1

/-- Modelled from the spec: the variant-specific score accumulation of
`scoreProcessor.AddResult` (not under `src/`), abstracted to accumulating the
fixed outcome values; the claims under proof never inspect the score formula,
only that it is a deterministic function of the judgement stream. -/
def scoreGain (result : Nat) : Int := ScoreValue result

/-- The backwards `allClicked` scan of `SendResult` (lines 517-528), applied
to the reversed prefix of the active set below the judged object: an unhit
object falsifies `allClicked` and stops; reaching a new-combo object stops
with `allClicked` still true. -/
def allClickedScan (objs : List BMObject) (player : Nat) : List ActiveObj → Bool
  | [] => true
  | g :: rest =>
    if g.hitBy player = false then false
    else if (objs.getD g.number defaultBMObject).newCombo = true then true
    else allClickedScan objs player rest

/-- The combo-run classification of `SendResult` (lines 530-540): for a base
hit outcome closing a run, Geki when the per-run counters are clean and the
run is fully clicked, else Katu when only the bad counter is clean and the
run is fully clicked, else Mu; returns the tagged result and the updated
cumulative geki/katu counters. -/
def bonusClassify (result : Nat) (currentKatu currentBad : Int) (allClicked : Bool)
    (gekiCount katuCount : Int) : Nat × Int × Int :=
  if result &&& BaseHits ≠ 0 then
    if currentKatu = 0 ∧ currentBad = 0 ∧ allClicked = true then
      (result ||| GekiAddition, gekiCount + 1, katuCount)
    else if currentBad = 0 ∧ allClicked = true then
      (result ||| KatuAddition, gekiCount, katuCount + 1)
    else
      (result ||| MuAddition, gekiCount, katuCount)
  else (result, gekiCount, katuCount)

/-- Output of `SendResult`: the updated sub-state, the (possibly tagged)
result fed to `hp.AddResult` (`none` on the early return for
`Ignore`/`PositionalMiss`, where the health model is not consulted), and the
result delivered to the hit listener (`none` when nothing is reported). -/
structure SROut where
  state : SubSet
  hpResult : Option Nat
  reported : Option Nat

/-- The result aggregator `OsuRuleSet.SendResult` (lines 442-571) for one
player.  `Ignore` and `PositionalMiss` return early, a positional miss being
reported only when a listener is registered and the Relax modifier is
inactive.  Otherwise the score processor records the result, the counting
outcomes update raw score / histogram / object count, accuracy and grade are
recomputed, the per-run counters track hundreds and fifties/misses, and at a
combo-run boundary (last object, or next object starts a new combo) the run
is classified and the per-run counters reset.  `sort.Search` over the
index-sorted active set is the first index whose object number reaches the
judged number. -/
def sendResult (cfg : PCfg) (player : Nat) (processed : List ActiveObj)
    (s : SubSet) (number : Nat) (result0 : Nat) (comboResult : ComboResult) : SROut :=
  if result0 = Ignore ∨ result0 = PositionalMiss then
    { state := s
      hpResult := none
      reported :=
        if result0 = PositionalMiss ∧ cfg.hasHitListener = true ∧ cfg.mods.relax = false
        then some result0 else none }
  else
    let result := modifyResult result0
    let combo := addResultCombo s.combo comboResult
    let score := s.score + scoreGain result
    let rawScore := if result &&& BaseHitsM ≠ 0 then s.rawScore + ScoreValue result else s.rawScore
    let hits : Nat → Int :=
      if result &&& BaseHitsM ≠ 0 then
        fun r => if r = result then s.hits r + 1 else s.hits r
      else s.hits
    let numObjects := if result &&& BaseHitsM ≠ 0 then s.numObjects + 1 else s.numObjects
    let maxCombo := max combo s.maxCombo
    let accuracy : ℚ :=
      if numObjects = 0 then 100
      else 100 * (rawScore : ℚ) / ((numObjects : ℚ) * 300)
    let grade := computeGradeCode hits numObjects cfg.mods
    let currentKatu := if result = Hit100 then s.currentKatu + 1 else s.currentKatu
    let currentBad := if result = Hit50 ∨ result = Miss then s.currentBad + 1 else s.currentBad
    let nObjs : Int := (cfg.objs.length : Int)
    if result &&& BaseHitsM ≠ 0 ∧
        ((number : Int) = nObjs - 1 ∨
          ((number : Int) < nObjs - 1 ∧ (cfg.objs.getD (number + 1) defaultBMObject).newCombo = true)) then
      let idx := processed.findIdx (fun g => decide (number ≤ g.number))
      let allClicked := allClickedScan cfg.objs player (processed.take idx).reverse
      let tk := bonusClassify result currentKatu currentBad allClicked s.gekiCount s.katuCount
      { state :=
          { rawScore := rawScore, accuracy := accuracy, maxCombo := maxCombo
            numObjects := numObjects, grade := grade, hits := hits
            currentKatu := 0, currentBad := 0
            gekiCount := tk.2.1, katuCount := tk.2.2
            recoveries := s.recoveries, combo := combo, score := score, failed := s.failed }
        hpResult := some tk.1
        reported := if cfg.hasHitListener = true then some tk.1 else none }
    else
      { state :=
          { rawScore := rawScore, accuracy := accuracy, maxCombo := maxCombo
            numObjects := numObjects, grade := grade, hits := hits
            currentKatu := currentKatu, currentBad := currentBad
            gekiCount := s.gekiCount, katuCount := s.katuCount
            recoveries := s.recoveries, combo := combo, score := score, failed := s.failed }
        hpResult := some result
        reported := if cfg.hasHitListener = true then some result else none }

/-- One per-player event delivered to the aggregator: a judgement for an
object (with the active-set snapshot at delivery time) or a health-model
fail signal. -/
inductive PEvent where
  | judge (processed : List ActiveObj) (number : Nat) (result : Nat) (comboResult : ComboResult)
  | failSignal

/-- One aggregator step on the per-player sub-state. -/
def stepEvent (cfg : PCfg) (player : Nat) (s : SubSet) : PEvent → SubSet
  | PEvent.judge processed number result comboResult =>
      (sendResult cfg player processed s number result comboResult).state
  | PEvent.failSignal => (failInternal cfg.mods cfg.hasFailListener s).state

/-- The per-player sub-state after a sequence of events. -/
def runEvents (cfg : PCfg) (player : Nat) (s : SubSet) (events : List PEvent) : SubSet :=
  events.foldl (stepEvent cfg player) s

/-- The index search of `CanBeHit` (lines 575-581): Go scans the whole active
set remembering the position of the candidate (pointer identity, modelled by
the unique ordinal), starting from -1. -/
def findLastIdxGo (processed : List ActiveObj) (n : Nat) : Int :=
  (processed.foldl
    (fun (acc : Int × Int) g => (if g.number = n then acc.2 else acc.1, acc.2 + 1))
    (-1, 0)).1

/-- The stacked-circle suppression test of `CanBeHit` (lines 574-586): the
candidate is a circle, it is not the first active object, and the directly
preceding active object has a positive stack index and is not yet hit by the
player. -/
def stackIgnoredCond (objs : List BMObject) (processed : List ActiveObj)
    (player : Nat) (obj : ActiveObj) : Bool :=
  decide ((objs.getD obj.number defaultBMObject).kind = ObjKind.circle) &&
    (let index := findLastIdxGo processed obj.number
     decide (0 < index) &&
       (let prev := processed.getD (index - 1).toNat defaultActiveObj
        decide (0 < (objs.getD prev.number defaultBMObject).stackIndex) && !(prev.hitBy player)))

/-- The unresolved-target scan of `CanBeHit` (lines 588-598): walking the
active set in order, an unresolved object other than the candidate whose end
time plus the 2B tolerance precedes the start of the candidate forces a
shake; reaching the (unresolved) candidate itself stops the scan. -/
def skippedScan (objs : List BMObject) (player : Nat) (objNumber : Nat) :
    List ActiveObj → Bool
  | [] => false
  | g :: rest =>
    if g.hitBy player = false then
      if g.number ≠ objNumber then
        if (objs.getD g.number defaultBMObject).endTime + Tolerance2B <
            (objs.getD objNumber defaultBMObject).startTime
        then true
        else skippedScan objs player objNumber rest
      else false
    else skippedScan objs player objNumber rest

/-- The click-eligibility resolver `OsuRuleSet.CanBeHit` (lines 573-610):
first the stacked-circle suppression, then the unresolved-target scan, then
the timing window `|time - startTime| >= hittable range` with the range
reduced by 200 under the Relax2 (autopilot) modifier. -/
def CanBeHit (objs : List BMObject) (mods : Mods) (processed : List ActiveObj)
    (time : Int) (obj : ActiveObj) (player : Nat) : ClickAction :=
  if stackIgnoredCond objs processed player obj = true then ClickAction.Ignored
  else if skippedScan objs player obj.number processed = true then ClickAction.Shake
  else
    let hitRange := HittableRange - (if mods.relax2 = true then 200 else 0)
    if hitRange ≤ |time - (objs.getD obj.number defaultBMObject).startTime| then ClickAction.Shake
    else ClickAction.Click

/-- The scan of `OsuRuleSet.UpdateNormalFor` (lines 404-428), returning the
active objects whose `UpdateFor` is invoked: sliders are skipped once an
earlier slider not yet hit by the player has been seen this frame (that
first unresolved slider itself is still visited). -/
def normalPassVisits (objs : List BMObject) (player : Nat) :
    List ActiveObj → Bool → List ActiveObj
  | [], _ => []
  | g :: rest, wasSliderAlready =>
    if (objs.getD g.number defaultBMObject).kind = ObjKind.slider then
      if wasSliderAlready = true then normalPassVisits objs player rest wasSliderAlready
      else g :: normalPassVisits objs player rest (wasSliderAlready || !(g.hitBy player))
    else g :: normalPassVisits objs player rest wasSliderAlready

/-- One engine frame over the players: the caller drives the per-cursor
passes in some iteration order; each visit folds that player events into the
player sub-state. -/
def processPlayers (cfgs : Nat → PCfg) (f : Nat → List PEvent) :
    List Nat → (Nat → SubSet) → (Nat → SubSet)
  | [], m => m
  | q :: rest, m =>
      processPlayers cfgs f rest
        (Function.update m q (runEvents (cfgs q) q (m q) (f q)))

/-- The per-frame trajectory of the whole engine: each frame carries the
per-player event streams and the cursor iteration order used that frame, and
contributes the post-frame map of player sub-states. -/
def engineTrajectory (cfgs : Nat → PCfg) :
    List ((Nat → List PEvent) × List Nat) → (Nat → SubSet) → List (Nat → SubSet)
  | [], _ => []
  | (f, order) :: rest, m =>
      let m2 := processPlayers cfgs f order m
      m2 :: engineTrajectory cfgs rest m2

/-! Concrete fixtures used by counterexamples and witnesses. -/

/-- The empty modifier set. -/
def mods0 : Mods :=
  { noFail := false, easy := false, hidden := false, flashlight := false
    relax := false, relax2 := false }

/-- The modifier set with only Relax active. -/
def modsRx : Mods := { mods0 with relax := true }

/-- Two stacked circles: the first carries a positive stack index. -/
def objs1 : List BMObject :=
  [{ startTime := 0, endTime := 0, newCombo := true, stackIndex := 1
     kind := ObjKind.circle, scorePoints := 0 },
   { startTime := 100, endTime := 100, newCombo := false, stackIndex := 0
     kind := ObjKind.circle, scorePoints := 0 }]

/-- Two circles without stacking, same timings as `objs1`. -/
def objs1b : List BMObject :=
  [{ startTime := 0, endTime := 0, newCombo := true, stackIndex := 0
     kind := ObjKind.circle, scorePoints := 0 },
   { startTime := 100, endTime := 100, newCombo := false, stackIndex := 0
     kind := ObjKind.circle, scorePoints := 0 }]

/-- Active set holding both objects, neither hit by anyone. -/
def proc1 : List ActiveObj :=
  [{ number := 0, hitBy := fun _ => false }, { number := 1, hitBy := fun _ => false }]

/-- The second object as click candidate. -/
def cand1 : ActiveObj := { number := 1, hitBy := fun _ => false }

/-- Single-circle beatmap configuration, listeners registered. -/
def cfg1 : PCfg :=
  { objs := [{ startTime := 0, endTime := 0, newCombo := true, stackIndex := 0
               kind := ObjKind.circle, scorePoints := 0 }]
    mods := mods0, hasHitListener := true, hasFailListener := true }

/-- Single-circle configuration with Relax active. -/
def cfgRx : PCfg := { cfg1 with mods := modsRx }

/-- Two-circle beatmap configuration. -/
def cfg2 : PCfg := { objs := objs1b, mods := mods0, hasHitListener := true, hasFailListener := true }

/-- A player sub-state after judging the first of the two circles of `cfg2`
with the best outcome. -/
def sC10 : SubSet :=
  runEvents cfg2 0 (initialSubSet mods0) [PEvent.judge [] 0 Hit300 ComboResult.increase]

/-- C5: on a health-model fail signal, immunity modifiers (no-fail or the
automation modifiers Relax/Relax2) discard the signal entirely; otherwise a
positive recovery budget loses exactly one unit together with the fixed
`Increase(160, false)` health bump and the player stays alive; otherwise the
player transitions to Failed and the fail listener fires exactly when it is
registered and the fail flag was not already set; and once the fail flag is
set, a fail signal never invokes the listener. -/
theorem failInternal_cases (mods : Mods) (hl : Bool) (s : SubSet) :
    ((mods.noFail = true ∨ mods.relax = true ∨ mods.relax2 = true) →
      failInternal mods hl s = { state := s, increase160 := false, listenerCalled := false }) ∧
    (¬(mods.noFail = true ∨ mods.relax = true ∨ mods.relax2 = true) → 0 < s.recoveries →
      failInternal mods hl s =
        { state := { s with recoveries := s.recoveries - 1 }
          increase160 := true, listenerCalled := false }) ∧
    (¬(mods.noFail = true ∨ mods.relax = true ∨ mods.relax2 = true) → ¬0 < s.recoveries →
      (failInternal mods hl s).state = { s with failed := true } ∧
      ((failInternal mods hl s).listenerCalled = true ↔ hl = true ∧ s.failed = false)) ∧
    (s.failed = true → (failInternal mods hl s).listenerCalled = false) := by
  refine ⟨fun h => by simp [failInternal, h], fun h h2 => by simp [failInternal, h, h2],
    fun h h2 => ?_, fun h => ?_⟩
  · constructor
    · simp [failInternal, h, h2]
    · simp [failInternal, h, h2, Bool.and_eq_true, Bool.not_eq_true']
  · unfold failInternal
    split
    · rfl
    · split
      · rfl
      · simp [h]

/-- C5 witness: a player without immunity and with an exhausted recovery
budget fails and the registered listener fires. -/
theorem failInternal_cases_witness :
    (failInternal mods0 true (initialSubSet mods0)).state =
      { initialSubSet mods0 with failed := true } ∧
    ((failInternal mods0 true (initialSubSet mods0)).listenerCalled = true ↔
      true = true ∧ (initialSubSet mods0).failed = false) :=
  (failInternal_cases mods0 true (initialSubSet mods0)).2.2.1 (by decide) (by decide)

/-- C8: when the candidate of the click-eligibility resolver is a circle
whose directly preceding active object has a positive stack index and is not
yet hit by the player, the resolver returns Ignored (suppressing the shake),
regardless of timing. -/
theorem canBeHit_stack_ignored (objs : List BMObject) (mods : Mods)
    (processed : List ActiveObj) (time : Int) (obj : ActiveObj) (player : Nat)
    (hkind : (objs.getD obj.number defaultBMObject).kind = ObjKind.circle)
    (hidx : 0 < findLastIdxGo processed obj.number)
    (hstack : 0 < (objs.getD
      (processed.getD (findLastIdxGo processed obj.number - 1).toNat defaultActiveObj).number
      defaultBMObject).stackIndex)
    (hunhit : (processed.getD (findLastIdxGo processed obj.number - 1).toNat
      defaultActiveObj).hitBy player = false) :
    CanBeHit objs mods processed time obj player = ClickAction.Ignored := by
  have hcond : stackIgnoredCond objs processed player obj = true := by
    simp only [stackIgnoredCond, Bool.and_eq_true, decide_eq_true_eq, Bool.not_eq_true']
    exact ⟨hkind, hidx, hstack, hunhit⟩
  simp [CanBeHit, hcond]

/-- C8 witness: the upper of two stacked circles, both unresolved, resolves
to Ignored. -/
theorem canBeHit_stack_ignored_witness :
    CanBeHit objs1 mods0 proc1 100 cand1 0 = ClickAction.Ignored :=
  canBeHit_stack_ignored objs1 mods0 proc1 100 cand1 0 (by decide) (by decide)
    (by decide) (by decide)

/-- C9 counterexample: with the Relax modifier active, a PositionalMiss
judgement is not reported to the registered hit listener, contrary to the
claim that a PositionalMiss is reported. -/
theorem positional_miss_relax_counterexample :
    (sendResult cfgRx 0 [] (initialSubSet modsRx) 0 PositionalMiss ComboResult.hold).reported
      = none ∧
    cfgRx.hasHitListener = true ∧ cfgRx.mods.relax = true := by
  refine ⟨rfl, rfl, rfl⟩

/-- C9 (amended): a judgement delivered with outcome Ignore or PositionalMiss
leaves the player sub-state entirely unchanged and never reaches the health
model; a PositionalMiss is reported to the hit listener exactly when a
listener is registered and the player Relax modifier is inactive, and an
Ignore is never reported. -/
theorem ignore_positional_miss_no_effect (cfg : PCfg) (player : Nat)
    (processed : List ActiveObj) (s : SubSet) (number : Nat) (result : Nat)
    (comboResult : ComboResult) (h : result = Ignore ∨ result = PositionalMiss) :
    (sendResult cfg player processed s number result comboResult).state = s ∧
    (sendResult cfg player processed s number result comboResult).hpResult = none ∧
    (sendResult cfg player processed s number result comboResult).reported =
      (if result = PositionalMiss ∧ cfg.hasHitListener = true ∧ cfg.mods.relax = false
       then some result else none) ∧
    (result = Ignore →
      (sendResult cfg player processed s number result comboResult).reported = none) := by
  unfold sendResult
  rw [if_pos h]
  refine ⟨rfl, rfl, rfl, fun hig => ?_⟩
  have : ¬(result = PositionalMiss ∧ cfg.hasHitListener = true ∧ cfg.mods.relax = false) := by
    rintro ⟨hpm, -, -⟩
    rw [hig] at hpm
    exact absurd hpm (by decide)
  simp [this]

/-- C9 witness: a PositionalMiss without Relax is reported and changes
nothing. -/
theorem ignore_positional_miss_no_effect_witness :
    (sendResult cfg1 0 [] (initialSubSet mods0) 0 PositionalMiss ComboResult.hold).state
      = initialSubSet mods0 ∧
    (sendResult cfg1 0 [] (initialSubSet mods0) 0 PositionalMiss ComboResult.hold).hpResult
      = none ∧
    (sendResult cfg1 0 [] (initialSubSet mods0) 0 PositionalMiss ComboResult.hold).reported =
      (if PositionalMiss = PositionalMiss ∧ cfg1.hasHitListener = true ∧ cfg1.mods.relax = false
       then some PositionalMiss else none) ∧
    (PositionalMiss = Ignore →
      (sendResult cfg1 0 [] (initialSubSet mods0) 0 PositionalMiss ComboResult.hold).reported
        = none) :=
  ignore_positional_miss_no_effect cfg1 0 [] (initialSubSet mods0) 0 PositionalMiss
    ComboResult.hold (Or.inr rfl)

/-- C10 counterexample: after perfectly judging only the first of two
circles, `IsPerfect` already answers true although the achieved max combo
(1) differs from the total maximum achievable combo of the sequence (2); the
comparison is against the prefix aggregate at the last judged object, not
the total. -/
theorem isPerfect_total_counterexample :
    IsPerfect (buildMapStats objs1b) sC10 = some true ∧
    sC10.maxCombo = 1 ∧
    ((buildMapStats objs1b).getLastD defaultMapTo).maxCombo = 2 := by
  refine ⟨by decide, by decide, by decide⟩

/-- C10 (amended): whenever the player has judged at least one object and
the index is in range (otherwise the Go code panics on the slice access),
`IsPerfect` answers true exactly when the achieved max combo equals the
maximum achievable combo of the prefix ending at the last judged object,
`mapStats[numObjects-1].maxCombo`. -/
theorem isPerfect_characterization (mapStats : List MapTo) (s : SubSet)
    (h1 : 1 ≤ s.numObjects) (h2 : (s.numObjects - 1).toNat < mapStats.length) :
    (IsPerfect mapStats s = some true ↔
      s.maxCombo = (mapStats.getD (s.numObjects - 1).toNat defaultMapTo).maxCombo) := by
  rw [IsPerfect, if_pos ⟨h1, h2⟩]
  simp only [Option.some.injEq, decide_eq_true_eq]

/-- C10 witness: the characterization applied to the state of the
counterexample scenario. -/
theorem isPerfect_characterization_witness :
    IsPerfect (buildMapStats objs1b) sC10 = some true ↔
      sC10.maxCombo = ((buildMapStats objs1b).getD (sC10.numObjects - 1).toNat
        defaultMapTo).maxCombo :=
  isPerfect_characterization (buildMapStats objs1b) sC10 (by decide) (by decide)

/-- C2: after every counted judgement, the player grade equals the
fixed-threshold priority function (as the specification words it) of the
post-judgement hit counts, with the visibility-reducing tier selected by the
Hidden/Flashlight modifiers.  The embedding compares the exact rational
ratios where Go compares `float64` quotients. -/
theorem grade_after_counted_judgement (cfg : PCfg) (player : Nat)
    (processed : List ActiveObj) (s : SubSet) (number : Nat) (result : Nat)
    (comboResult : ComboResult) (hres : result &&& BaseHitsM ≠ 0) :
    (sendResult cfg player processed s number result comboResult).state.grade =
      gradeSpecClaim
        ((sendResult cfg player processed s number result comboResult).state.hits Hit300)
        ((sendResult cfg player processed s number result comboResult).state.hits Hit50)
        ((sendResult cfg player processed s number result comboResult).state.hits Miss)
        (sendResult cfg player processed s number result comboResult).state.numObjects
        (cfg.mods.hidden || cfg.mods.flashlight) := by
  have hguard : ¬(result = Ignore ∨ result = PositionalMiss) := by
    rintro (rfl | rfl) <;> exact hres (by decide)
  simp only [sendResult, if_neg hguard]
  split
  · rfl
  · rfl

/-- C2 witness: a best-outcome judgement on a one-circle map yields a grade
equal to the priority function of the resulting counts. -/
theorem grade_after_counted_judgement_witness :
    (sendResult cfg1 0 [] (initialSubSet mods0) 0 Hit300 ComboResult.increase).state.grade =
      gradeSpecClaim
        ((sendResult cfg1 0 [] (initialSubSet mods0) 0 Hit300 ComboResult.increase).state.hits Hit300)
        ((sendResult cfg1 0 [] (initialSubSet mods0) 0 Hit300 ComboResult.increase).state.hits Hit50)
        ((sendResult cfg1 0 [] (initialSubSet mods0) 0 Hit300 ComboResult.increase).state.hits Miss)
        (sendResult cfg1 0 [] (initialSubSet mods0) 0 Hit300 ComboResult.increase).state.numObjects
        (cfg1.mods.hidden || cfg1.mods.flashlight) :=
  grade_after_counted_judgement cfg1 0 [] (initialSubSet mods0) 0 Hit300
    ComboResult.increase (by decide)

/-- Characterization of the unresolved-target scan: provided every active
entry carrying the candidate ordinal is unresolved (the candidate is being
offered a click), the scan shakes exactly when some unresolved entry before
the candidate position is stale, i.e. its end time plus the 2B tolerance
precedes the candidate start time. -/
theorem skippedScan_eq_true_iff (objs : List BMObject) (player : Nat) (objNumber : Nat)
    (processed : List ActiveObj)
    (hall : ∀ g ∈ processed, g.number = objNumber → g.hitBy player = false) :
    (skippedScan objs player objNumber processed = true ↔
      ∃ g ∈ processed.takeWhile (fun g' => decide (g'.number ≠ objNumber)),
        g.hitBy player = false ∧
        (objs.getD g.number defaultBMObject).endTime + Tolerance2B <
          (objs.getD objNumber defaultBMObject).startTime) := by
  induction processed with
  | nil => simp [skippedScan]
  | cons g rest ih =>
    have ih2 := ih (fun x hx hn => hall x (List.mem_cons_of_mem g hx) hn)
    by_cases hn : g.number = objNumber
    · have hhit := hall g (List.mem_cons_self g rest) hn
      rw [skippedScan, if_pos hhit, if_neg (by simpa using hn)]
      simp [List.takeWhile_cons, hn]
    · by_cases hh : g.hitBy player = false
      · by_cases hst : (objs.getD g.number defaultBMObject).endTime + Tolerance2B <
            (objs.getD objNumber defaultBMObject).startTime
        · rw [skippedScan, if_pos hh, if_pos (by simpa using hn), if_pos hst]
          simp only [List.takeWhile_cons, decide_eq_true_eq]
          rw [if_pos (by simpa using hn)]
          simp only [List.mem_cons, true_iff]
          exact ⟨g, Or.inl rfl, hh, hst⟩
        · rw [skippedScan, if_pos hh, if_pos (by simpa using hn), if_neg hst]
          rw [ih2]
          simp only [List.takeWhile_cons, decide_eq_true_eq]
          rw [if_pos (by simpa using hn)]
          constructor
          · rintro ⟨x, hx, hhx, hsx⟩
            exact ⟨x, List.mem_cons_of_mem g hx, hhx, hsx⟩
          · rintro ⟨x, hx, hhx, hsx⟩
            rcases List.mem_cons.mp hx with rfl | hx
            · exact absurd hsx hst
            · exact ⟨x, hx, hhx, hsx⟩
      · rw [skippedScan, if_neg hh]
        rw [ih2]
        simp only [List.takeWhile_cons, decide_eq_true_eq]
        rw [if_pos (by simpa using hn)]
        constructor
        · rintro ⟨x, hx, hhx, hsx⟩
          exact ⟨x, List.mem_cons_of_mem g hx, hhx, hsx⟩
        · rintro ⟨x, hx, hhx, hsx⟩
          rcases List.mem_cons.mp hx with rfl | hx
          · exact absurd hhx hh
          · exact ⟨x, hx, hhx, hsx⟩

/-- C1 counterexample: a candidate circle directly above an unresolved
stacked predecessor is resolved to Ignored even though the click time is far
outside the timing window, so the resolver does not return Shake although
the out-of-window condition of the claim holds. -/
theorem canBeHit_shake_claim_counterexample :
    CanBeHit objs1 mods0 proc1 10000 cand1 0 = ClickAction.Ignored ∧
    CanBeHit objs1 mods0 proc1 10000 cand1 0 ≠ ClickAction.Shake ∧
    HittableRange - (if mods0.relax2 = true then 200 else 0) ≤
      |10000 - (objs1.getD cand1.number defaultBMObject).startTime| := by
  refine ⟨by decide, by decide, by decide⟩

/-- C1 (amended): provided the stacked-circle suppression does not apply (in
which case the resolver returns Ignored instead) and the candidate is
unresolved, the resolver returns Shake exactly when some earlier unresolved
active entry is stale (its end time plus the fixed 3 ms tolerance precedes
the candidate start time) or the click time is outside the timing window,
`hittable range − time-from-start` with the range reduced by a fixed
constant under the Relax2 automation modifier; in particular an earlier
unresolved entry that is not stale never produces a Shake on its own
account. -/
theorem canBeHit_shake_characterization (objs : List BMObject) (mods : Mods)
    (processed : List ActiveObj) (time : Int) (obj : ActiveObj) (player : Nat)
    (hall : ∀ g ∈ processed, g.number = obj.number → g.hitBy player = false)
    (hni : stackIgnoredCond objs processed player obj = false) :
    (CanBeHit objs mods processed time obj player = ClickAction.Shake ↔
      ((∃ g ∈ processed.takeWhile (fun g' => decide (g'.number ≠ obj.number)),
          g.hitBy player = false ∧
          (objs.getD g.number defaultBMObject).endTime + Tolerance2B <
            (objs.getD obj.number defaultBMObject).startTime) ∨
        HittableRange - (if mods.relax2 = true then 200 else 0) ≤
          |time - (objs.getD obj.number defaultBMObject).startTime|)) := by
  rw [CanBeHit, if_neg (by simp [hni])]
  rw [← skippedScan_eq_true_iff objs player obj.number processed hall]
  by_cases hscan : skippedScan objs player obj.number processed = true
  · simp [hscan]
  · rw [if_neg hscan]
    simp only [hscan, false_or]
    by_cases hw : HittableRange - (if mods.relax2 = true then 200 else 0) ≤
        |time - (objs.getD obj.number defaultBMObject).startTime|
    · simp [hw]
    · simp [hw]

/-- C1 witness: with an unresolved stale earlier circle (end time 0 + 3 ms
before the candidate start 100) the resolver shakes the candidate. -/
theorem canBeHit_shake_characterization_witness :
    CanBeHit objs1b mods0 proc1 101 cand1 0 = ClickAction.Shake ↔
      ((∃ g ∈ proc1.takeWhile (fun g' => decide (g'.number ≠ cand1.number)),
          g.hitBy 0 = false ∧
          (objs1b.getD g.number defaultBMObject).endTime + Tolerance2B <
            (objs1b.getD cand1.number defaultBMObject).startTime) ∨
        HittableRange - (if mods0.relax2 = true then 200 else 0) ≤
          |101 - (objs1b.getD cand1.number defaultBMObject).startTime|) :=
  canBeHit_shake_characterization objs1b mods0 proc1 101 cand1 0 (by decide) (by decide)

/-- Scan step: a slider entry is skipped once the suppression flag is set. -/
theorem normalPassVisits_cons_slider_true (objs : List BMObject) (player : Nat)
    (g : ActiveObj) (rest : List ActiveObj)
    (hk : (objs.getD g.number defaultBMObject).kind = ObjKind.slider) :
    normalPassVisits objs player (g :: rest) true =
      normalPassVisits objs player rest true := by
  rw [normalPassVisits, if_pos hk, if_pos rfl]

/-- Scan step: an unresolved slider is visited and sets the suppression flag. -/
theorem normalPassVisits_cons_slider_unhit (objs : List BMObject) (player : Nat)
    (g : ActiveObj) (rest : List ActiveObj)
    (hk : (objs.getD g.number defaultBMObject).kind = ObjKind.slider)
    (hh : g.hitBy player = false) :
    normalPassVisits objs player (g :: rest) false =
      g :: normalPassVisits objs player rest true := by
  rw [normalPassVisits, if_pos hk, if_neg (by decide), hh]
  exact rfl

/-- Scan step: an already-hit slider is visited without setting the flag. -/
theorem normalPassVisits_cons_slider_hit (objs : List BMObject) (player : Nat)
    (g : ActiveObj) (rest : List ActiveObj)
    (hk : (objs.getD g.number defaultBMObject).kind = ObjKind.slider)
    (hh : g.hitBy player = true) :
    normalPassVisits objs player (g :: rest) false =
      g :: normalPassVisits objs player rest false := by
  rw [normalPassVisits, if_pos hk, if_neg (by decide), hh]
  exact rfl

/-- Scan step: a non-slider entry is always visited and leaves the flag alone. -/
theorem normalPassVisits_cons_nonslider (objs : List BMObject) (player : Nat)
    (g : ActiveObj) (rest : List ActiveObj) (b : Bool)
    (hk : ¬(objs.getD g.number defaultBMObject).kind = ObjKind.slider) :
    normalPassVisits objs player (g :: rest) b =
      g :: normalPassVisits objs player rest b := by
  rw [normalPassVisits, if_neg hk]

/-- Once the suppression flag is set, the scan of `UpdateNormalFor` visits
exactly the non-slider entries. -/
theorem normalPassVisits_true (objs : List BMObject) (player : Nat) (l : List ActiveObj) :
    normalPassVisits objs player l true =
      l.filter (fun x => decide ((objs.getD x.number defaultBMObject).kind ≠ ObjKind.slider)) := by
  induction l with
  | nil => rfl
  | cons g rest ih =>
    by_cases hk : (objs.getD g.number defaultBMObject).kind = ObjKind.slider
    · rw [normalPassVisits_cons_slider_true objs player g rest hk, ih, List.filter_cons]
      rw [if_neg (by simpa using hk)]
    · rw [normalPassVisits_cons_nonslider objs player g rest true hk, ih, List.filter_cons]
      rw [if_pos (by simpa using hk)]

/-- No unresolved slider is visited after the suppression flag is set. -/
theorem normalPassVisits_true_countP (objs : List BMObject) (player : Nat)
    (l : List ActiveObj) :
    (normalPassVisits objs player l true).countP
      (fun x => decide ((objs.getD x.number defaultBMObject).kind = ObjKind.slider ∧
        x.hitBy player = false)) = 0 := by
  rw [normalPassVisits_true, List.countP_eq_zero]
  intro a ha
  have hk := (List.mem_filter.mp ha).2
  simp only [decide_eq_true_eq] at hk ⊢
  exact fun hc => hk hc.1

/-- C7: in the per-frame pass scanning the active set for a player
(`UpdateNormalFor`, the pass in which sliders consume the frame click),
once the first slider not yet hit by the player is reached, every later
slider of the pass is skipped — the visited entries after it are exactly the
non-sliders — and consequently at most one unresolved slider is visited in
any single pass. -/
theorem normal_pass_slider_suppression :
    (∀ (objs : List BMObject) (player : Nat) (l₁ : List ActiveObj) (g : ActiveObj)
      (l₂ : List ActiveObj),
      (∀ x ∈ l₁, (objs.getD x.number defaultBMObject).kind = ObjKind.slider →
        x.hitBy player = true) →
      (objs.getD g.number defaultBMObject).kind = ObjKind.slider →
      g.hitBy player = false →
      normalPassVisits objs player (l₁ ++ g :: l₂) false =
        normalPassVisits objs player l₁ false ++ g ::
          l₂.filter (fun x => decide ((objs.getD x.number defaultBMObject).kind ≠ ObjKind.slider))) ∧
    (∀ (objs : List BMObject) (player : Nat) (l : List ActiveObj),
      (normalPassVisits objs player l false).countP
        (fun x => decide ((objs.getD x.number defaultBMObject).kind = ObjKind.slider ∧
          x.hitBy player = false)) ≤ 1) := by
  constructor
  · intro objs player l₁ g l₂ h₁ hgk hgh
    induction l₁ with
    | nil =>
      rw [List.nil_append, normalPassVisits_cons_slider_unhit objs player g l₂ hgk hgh,
        normalPassVisits_true]
      rfl
    | cons x rest ih =>
      have hrest : ∀ y ∈ rest, (objs.getD y.number defaultBMObject).kind = ObjKind.slider →
          y.hitBy player = true := fun y hy => h₁ y (List.mem_cons_of_mem x hy)
      by_cases hk : (objs.getD x.number defaultBMObject).kind = ObjKind.slider
      · have hxh : x.hitBy player = true := h₁ x (List.mem_cons_self x rest) hk
        rw [List.cons_append,
          normalPassVisits_cons_slider_hit objs player x (rest ++ g :: l₂) hk hxh,
          normalPassVisits_cons_slider_hit objs player x rest hk hxh,
          ih hrest]
        rfl
      · rw [List.cons_append,
          normalPassVisits_cons_nonslider objs player x (rest ++ g :: l₂) false hk,
          normalPassVisits_cons_nonslider objs player x rest false hk,
          ih hrest]
        rfl
  · intro objs player l
    induction l with
    | nil => simp [normalPassVisits]
    | cons g rest ih =>
      by_cases hk : (objs.getD g.number defaultBMObject).kind = ObjKind.slider
      · by_cases hh : g.hitBy player = false
        · rw [normalPassVisits_cons_slider_unhit objs player g rest hk hh,
            List.countP_cons, normalPassVisits_true_countP]
          split <;> omega
        · have hh2 : g.hitBy player = true := by
            cases hg : g.hitBy player
            · exact absurd hg hh
            · rfl
          rw [normalPassVisits_cons_slider_hit objs player g rest hk hh2,
            List.countP_cons]
          have hp : (decide ((objs.getD g.number defaultBMObject).kind = ObjKind.slider ∧
              g.hitBy player = false)) = false := by
            rw [decide_eq_false_iff_not]
            rintro ⟨-, hc⟩
            rw [hh2] at hc
            exact absurd hc (by decide)
          rw [hp]
          simpa using ih
      · rw [normalPassVisits_cons_nonslider objs player g rest false hk, List.countP_cons]
        have hp : (decide ((objs.getD g.number defaultBMObject).kind = ObjKind.slider ∧
            g.hitBy player = false)) = false := by
          rw [decide_eq_false_iff_not]
          rintro ⟨hc, -⟩
          exact hk hc
        rw [hp]
        simpa using ih

/-- C7 witness: with two unresolved sliders in the active set, only the
first is visited; the second is skipped that frame. -/
theorem normal_pass_slider_suppression_witness :
    normalPassVisits
        (List.replicate 2
          { startTime := 0, endTime := 0, newCombo := false, stackIndex := 0
            kind := ObjKind.slider, scorePoints := 1 })
        0 ([] ++ { number := 0, hitBy := fun _ => false } ::
          [{ number := 1, hitBy := fun _ => false }]) false =
      normalPassVisits
        (List.replicate 2
          { startTime := 0, endTime := 0, newCombo := false, stackIndex := 0
            kind := ObjKind.slider, scorePoints := 1 })
        0 [] false ++ { number := 0, hitBy := fun _ => false } ::
        List.filter
          (fun x => decide (((List.replicate 2
            { startTime := 0, endTime := 0, newCombo := false, stackIndex := 0
              kind := ObjKind.slider, scorePoints := 1 } : List BMObject).getD x.number
            defaultBMObject).kind ≠ ObjKind.slider))
          [{ number := 1, hitBy := fun _ => false }] :=
  normal_pass_slider_suppression.1
    (List.replicate 2
      { startTime := 0, endTime := 0, newCombo := false, stackIndex := 0
        kind := ObjKind.slider, scorePoints := 1 })
    0 [] { number := 0, hitBy := fun _ => false } [{ number := 1, hitBy := fun _ => false }]
    (by simp) (by decide) (by decide)

/-- Normal form of `SendResult` at a combo-run boundary: with a counting
outcome and the boundary condition (last object, or next object starts a new
combo), the call takes the classification branch and resets the per-run
counters. -/
theorem sendResult_close_eq (cfg : PCfg) (player : Nat) (processed : List ActiveObj)
    (s : SubSet) (number : Nat) (result : Nat) (comboResult : ComboResult)
    (hguard : ¬(result = Ignore ∨ result = PositionalMiss))
    (hcount : result &&& BaseHitsM ≠ 0)
    (hclose : (number : Int) = (cfg.objs.length : Int) - 1 ∨
      ((number : Int) < (cfg.objs.length : Int) - 1 ∧
        (cfg.objs.getD (number + 1) defaultBMObject).newCombo = true)) :
    sendResult cfg player processed s number result comboResult =
      { state :=
          { rawScore := s.rawScore + ScoreValue result
            accuracy :=
              if s.numObjects + 1 = 0 then 100
              else 100 * ((s.rawScore + ScoreValue result : Int) : ℚ) /
                (((s.numObjects + 1 : Int) : ℚ) * 300)
            maxCombo := max (addResultCombo s.combo comboResult) s.maxCombo
            numObjects := s.numObjects + 1
            grade := computeGradeCode
              (fun r => if r = result then s.hits r + 1 else s.hits r)
              (s.numObjects + 1) cfg.mods
            hits := fun r => if r = result then s.hits r + 1 else s.hits r
            currentKatu := 0
            currentBad := 0
            gekiCount := (bonusClassify result
              (if result = Hit100 then s.currentKatu + 1 else s.currentKatu)
              (if result = Hit50 ∨ result = Miss then s.currentBad + 1 else s.currentBad)
              (allClickedScan cfg.objs player
                (processed.take (processed.findIdx (fun g => decide (number ≤ g.number)))).reverse)
              s.gekiCount s.katuCount).2.1
            katuCount := (bonusClassify result
              (if result = Hit100 then s.currentKatu + 1 else s.currentKatu)
              (if result = Hit50 ∨ result = Miss then s.currentBad + 1 else s.currentBad)
              (allClickedScan cfg.objs player
                (processed.take (processed.findIdx (fun g => decide (number ≤ g.number)))).reverse)
              s.gekiCount s.katuCount).2.2
            recoveries := s.recoveries
            combo := addResultCombo s.combo comboResult
            score := s.score + scoreGain result
            failed := s.failed }
        hpResult := some (bonusClassify result
          (if result = Hit100 then s.currentKatu + 1 else s.currentKatu)
          (if result = Hit50 ∨ result = Miss then s.currentBad + 1 else s.currentBad)
          (allClickedScan cfg.objs player
            (processed.take (processed.findIdx (fun g => decide (number ≤ g.number)))).reverse)
          s.gekiCount s.katuCount).1
        reported := if cfg.hasHitListener = true then
          some (bonusClassify result
            (if result = Hit100 then s.currentKatu + 1 else s.currentKatu)
            (if result = Hit50 ∨ result = Miss then s.currentBad + 1 else s.currentBad)
            (allClickedScan cfg.objs player
              (processed.take (processed.findIdx (fun g => decide (number ≤ g.number)))).reverse)
            s.gekiCount s.katuCount).1
          else none } := by
  simp only [sendResult, modifyResult, if_neg hguard, eq_true hcount, eq_true hclose,
    true_and, and_true, if_true]

/-- Classification case: a clean, fully clicked run closing on a base hit is
Geki. -/
theorem bonusClassify_geki (result : Nat) (katu bad : Int) (ac : Bool) (g k : Int)
    (hb : result &&& BaseHits ≠ 0) (h1 : katu = 0) (h2 : bad = 0) (h3 : ac = true) :
    bonusClassify result katu bad ac g k = (result ||| GekiAddition, g + 1, k) := by
  rw [bonusClassify, if_pos hb, if_pos ⟨h1, h2, h3⟩]

/-- Classification case: a run with hundreds but no fifties/misses, fully
clicked, closing on a base hit is Katu. -/
theorem bonusClassify_katu (result : Nat) (katu bad : Int) (ac : Bool) (g k : Int)
    (hb : result &&& BaseHits ≠ 0) (h1 : katu ≠ 0) (h2 : bad = 0) (h3 : ac = true) :
    bonusClassify result katu bad ac g k = (result ||| KatuAddition, g, k + 1) := by
  rw [bonusClassify, if_pos hb, if_neg (fun hc => h1 hc.1), if_pos ⟨h2, h3⟩]

/-- Classification case: a run with fifties/misses or missing clicks closing
on a base hit is Mu. -/
theorem bonusClassify_mu (result : Nat) (katu bad : Int) (ac : Bool) (g k : Int)
    (hb : result &&& BaseHits ≠ 0) (h : bad ≠ 0 ∨ ac = false) :
    bonusClassify result katu bad ac g k = (result ||| MuAddition, g, k) := by
  have hno : ¬(bad = 0 ∧ ac = true) := by
    rintro ⟨hbad, hac⟩
    rcases h with h | h
    · exact h hbad
    · rw [hac] at h
      exact absurd h (by decide)
  rw [bonusClassify, if_pos hb, if_neg (fun hc => hno ⟨hc.2.1, hc.2.2⟩), if_neg hno]

/-- Classification case: a run closing on an outcome outside the base hits
(a Miss) is neither classified nor tagged. -/
theorem bonusClassify_nobase (result : Nat) (katu bad : Int) (ac : Bool) (g k : Int)
    (hb : result &&& BaseHits = 0) :
    bonusClassify result katu bad ac g k = (result, g, k) := by
  rw [bonusClassify, if_neg (fun hc => hc hb)]

/-- C4 counterexample: a combo run closed by a Miss (single-object map) is
reported without any bonus tag — contrary to the claim that the closing
outcome is always tagged with the matching bonus flag — and no cumulative
counter changes; only the per-run counters are reset. -/
theorem bonus_miss_close_counterexample :
    (sendResult cfg1 0 [] (initialSubSet mods0) 0 Miss ComboResult.reset).hpResult
      = some Miss ∧
    Miss &&& (GekiAddition ||| KatuAddition ||| MuAddition) = 0 ∧
    (sendResult cfg1 0 [] (initialSubSet mods0) 0 Miss ComboResult.reset).state.gekiCount = 0 ∧
    (sendResult cfg1 0 [] (initialSubSet mods0) 0 Miss ComboResult.reset).state.katuCount = 0 ∧
    (sendResult cfg1 0 [] (initialSubSet mods0) 0 Miss ComboResult.reset).state.currentBad = 0 := by
  refine ⟨by decide, by decide, by decide, by decide, by decide⟩

/-- C4 (amended): at the close of a combo run (the judged target is the last
object or the next object starts a new combo), with the per-run counters
already updated by the closing outcome, the code classifies the run only
when the closing outcome is a base hit (50/100/300): Geki when both per-run
counters are clean and every still-active member of the run below the target
is hit, else Katu when only the bad counter is clean and the run is fully
clicked, else Mu; exactly the matching cumulative counter (none for Mu) is
incremented and the matching bonus flag is attached to the reported outcome.
A run closed by a Miss is neither classified nor tagged and changes no
cumulative counter.  In all cases the per-run counters reset, and a run
containing any miss (positive bad counter) never increments a cumulative
counter nor yields a Geki/Katu tag. -/
theorem bonus_classification_characterization (cfg : PCfg) (player : Nat)
    (processed : List ActiveObj) (s : SubSet) (number : Nat) (result : Nat)
    (comboResult : ComboResult) (katu2 bad2 : Int) (ac : Bool)
    (hbase : result = Hit50 ∨ result = Hit100 ∨ result = Hit300 ∨ result = Miss)
    (hclose : (number : Int) = (cfg.objs.length : Int) - 1 ∨
      ((number : Int) < (cfg.objs.length : Int) - 1 ∧
        (cfg.objs.getD (number + 1) defaultBMObject).newCombo = true))
    (hk : katu2 = (if result = Hit100 then s.currentKatu + 1 else s.currentKatu))
    (hb : bad2 = (if result = Hit50 ∨ result = Miss then s.currentBad + 1 else s.currentBad))
    (hac : ac = allClickedScan cfg.objs player
      (processed.take (processed.findIdx (fun g => decide (number ≤ g.number)))).reverse) :
    (sendResult cfg player processed s number result comboResult).state.currentKatu = 0 ∧
    (sendResult cfg player processed s number result comboResult).state.currentBad = 0 ∧
    (result ≠ Miss → katu2 = 0 → bad2 = 0 → ac = true →
      (sendResult cfg player processed s number result comboResult).hpResult =
        some (result ||| GekiAddition) ∧
      (sendResult cfg player processed s number result comboResult).state.gekiCount =
        s.gekiCount + 1 ∧
      (sendResult cfg player processed s number result comboResult).state.katuCount =
        s.katuCount) ∧
    (result ≠ Miss → katu2 ≠ 0 → bad2 = 0 → ac = true →
      (sendResult cfg player processed s number result comboResult).hpResult =
        some (result ||| KatuAddition) ∧
      (sendResult cfg player processed s number result comboResult).state.gekiCount =
        s.gekiCount ∧
      (sendResult cfg player processed s number result comboResult).state.katuCount =
        s.katuCount + 1) ∧
    (result ≠ Miss → (bad2 ≠ 0 ∨ ac = false) →
      (sendResult cfg player processed s number result comboResult).hpResult =
        some (result ||| MuAddition) ∧
      (sendResult cfg player processed s number result comboResult).state.gekiCount =
        s.gekiCount ∧
      (sendResult cfg player processed s number result comboResult).state.katuCount =
        s.katuCount) ∧
    (result = Miss →
      (sendResult cfg player processed s number result comboResult).hpResult =
        some Miss ∧
      (sendResult cfg player processed s number result comboResult).state.gekiCount =
        s.gekiCount ∧
      (sendResult cfg player processed s number result comboResult).state.katuCount =
        s.katuCount) ∧
    (0 < bad2 →
      (sendResult cfg player processed s number result comboResult).state.gekiCount =
        s.gekiCount ∧
      (sendResult cfg player processed s number result comboResult).state.katuCount =
        s.katuCount ∧
      ∀ t, (sendResult cfg player processed s number result comboResult).hpResult = some t →
        t &&& GekiAddition = 0 ∧ t &&& KatuAddition = 0) := by
  have hguard : ¬(result = Ignore ∨ result = PositionalMiss) := by
    rintro (rfl | rfl) <;>
      rcases hbase with h | h | h | h <;> exact absurd h (by decide)
  have hcount : result &&& BaseHitsM ≠ 0 := by
    rcases hbase with rfl | rfl | rfl | rfl <;> decide
  subst hk hb hac
  rw [sendResult_close_eq cfg player processed s number result comboResult hguard hcount hclose]
  have hbByNotMiss : result ≠ Miss → result &&& BaseHits ≠ 0 := by
    intro hm
    rcases hbase with rfl | rfl | rfl | rfl
    · decide
    · decide
    · decide
    · exact absurd rfl hm
  refine ⟨rfl, rfl, ?_, ?_, ?_, ?_, ?_⟩
  · intro hm h1 h2 h3
    rw [bonusClassify_geki _ _ _ _ _ _ (hbByNotMiss hm) h1 h2 h3]
    exact ⟨rfl, rfl, rfl⟩
  · intro hm h1 h2 h3
    rw [bonusClassify_katu _ _ _ _ _ _ (hbByNotMiss hm) h1 h2 h3]
    exact ⟨rfl, rfl, rfl⟩
  · intro hm h
    rw [bonusClassify_mu _ _ _ _ _ _ (hbByNotMiss hm) h]
    exact ⟨rfl, rfl, rfl⟩
  · intro hm
    subst hm
    rw [bonusClassify_nobase _ _ _ _ _ _ (by decide)]
    exact ⟨rfl, rfl, rfl⟩
  · intro hbad
    by_cases hm : result = Miss
    · subst hm
      rw [bonusClassify_nobase _ _ _ _ _ _ (by decide)]
      refine ⟨rfl, rfl, fun t ht => ?_⟩
      have : t = Miss := by
        injection ht with h2
        exact h2.symm
      subst this
      exact ⟨by decide, by decide⟩
    · rw [bonusClassify_mu _ _ _ _ _ _ (hbByNotMiss hm) (Or.inl (by omega))]
      refine ⟨rfl, rfl, fun t ht => ?_⟩
      have ht2 : t = result ||| MuAddition := by
        injection ht with h2
        exact h2.symm
      subst ht2
      rcases hbase with rfl | rfl | rfl | rfl
      · exact ⟨by decide, by decide⟩
      · exact ⟨by decide, by decide⟩
      · exact ⟨by decide, by decide⟩
      · exact absurd rfl hm

/-- C4 witness: a best-outcome judgement closing the run of a one-circle map
with clean counters and a fully clicked run is tagged Geki and increments
the geki counter. -/
theorem bonus_classification_characterization_witness :
    (sendResult cfg1 0 [] (initialSubSet mods0) 0 Hit300 ComboResult.increase).state.currentKatu
      = 0 ∧
    (sendResult cfg1 0 [] (initialSubSet mods0) 0 Hit300 ComboResult.increase).state.currentBad
      = 0 ∧
    (Hit300 ≠ Miss → (0 : Int) = 0 → (0 : Int) = 0 → true = true →
      (sendResult cfg1 0 [] (initialSubSet mods0) 0 Hit300 ComboResult.increase).hpResult =
        some (Hit300 ||| GekiAddition) ∧
      (sendResult cfg1 0 [] (initialSubSet mods0) 0 Hit300 ComboResult.increase).state.gekiCount =
        (initialSubSet mods0).gekiCount + 1 ∧
      (sendResult cfg1 0 [] (initialSubSet mods0) 0 Hit300 ComboResult.increase).state.katuCount =
        (initialSubSet mods0).katuCount) ∧
    (Hit300 ≠ Miss → (0 : Int) ≠ 0 → (0 : Int) = 0 → true = true →
      (sendResult cfg1 0 [] (initialSubSet mods0) 0 Hit300 ComboResult.increase).hpResult =
        some (Hit300 ||| KatuAddition) ∧
      (sendResult cfg1 0 [] (initialSubSet mods0) 0 Hit300 ComboResult.increase).state.gekiCount =
        (initialSubSet mods0).gekiCount ∧
      (sendResult cfg1 0 [] (initialSubSet mods0) 0 Hit300 ComboResult.increase).state.katuCount =
        (initialSubSet mods0).katuCount + 1) ∧
    (Hit300 ≠ Miss → ((0 : Int) ≠ 0 ∨ true = false) →
      (sendResult cfg1 0 [] (initialSubSet mods0) 0 Hit300 ComboResult.increase).hpResult =
        some (Hit300 ||| MuAddition) ∧
      (sendResult cfg1 0 [] (initialSubSet mods0) 0 Hit300 ComboResult.increase).state.gekiCount =
        (initialSubSet mods0).gekiCount ∧
      (sendResult cfg1 0 [] (initialSubSet mods0) 0 Hit300 ComboResult.increase).state.katuCount =
        (initialSubSet mods0).katuCount) ∧
    (Hit300 = Miss →
      (sendResult cfg1 0 [] (initialSubSet mods0) 0 Hit300 ComboResult.increase).hpResult =
        some Miss ∧
      (sendResult cfg1 0 [] (initialSubSet mods0) 0 Hit300 ComboResult.increase).state.gekiCount =
        (initialSubSet mods0).gekiCount ∧
      (sendResult cfg1 0 [] (initialSubSet mods0) 0 Hit300 ComboResult.increase).state.katuCount =
        (initialSubSet mods0).katuCount) ∧
    ((0 : Int) < 0 →
      (sendResult cfg1 0 [] (initialSubSet mods0) 0 Hit300 ComboResult.increase).state.gekiCount =
        (initialSubSet mods0).gekiCount ∧
      (sendResult cfg1 0 [] (initialSubSet mods0) 0 Hit300 ComboResult.increase).state.katuCount =
        (initialSubSet mods0).katuCount ∧
      ∀ t, (sendResult cfg1 0 [] (initialSubSet mods0) 0 Hit300 ComboResult.increase).hpResult
          = some t → t &&& GekiAddition = 0 ∧ t &&& KatuAddition = 0) :=
  bonus_classification_characterization cfg1 0 [] (initialSubSet mods0) 0 Hit300
    ComboResult.increase 0 0 true (Or.inr (Or.inr (Or.inl rfl))) (Or.inl (by decide))
    (by decide) (by decide) (by decide)

/-- Bounds of the fixed outcome values. -/
theorem ScoreValue_bounds (r : Nat) : 0 ≤ ScoreValue r ∧ ScoreValue r ≤ 300 := by
  unfold ScoreValue
  split_ifs <;> norm_num

/-- Inductive invariant of the aggregator: the raw score stays between 0 and
300 per judged object, and accuracy is exactly the normalised raw score (100
with no judged object). -/
def accInv (s : SubSet) : Prop :=
  0 ≤ s.rawScore ∧ s.rawScore ≤ 300 * s.numObjects ∧ 0 ≤ s.numObjects ∧
  (s.numObjects = 0 → s.accuracy = 100) ∧
  (s.numObjects ≠ 0 →
    s.accuracy = 100 * (s.rawScore : ℚ) / ((s.numObjects : ℚ) * 300))

/-- `SendResult` preserves the accuracy invariant. -/
theorem accInv_sendResult (cfg : PCfg) (player : Nat) (processed : List ActiveObj)
    (s : SubSet) (number : Nat) (result : Nat) (comboResult : ComboResult)
    (h : accInv s) :
    accInv (sendResult cfg player processed s number result comboResult).state := by
  obtain ⟨h1, h2, h3, h4, h5⟩ := h
  obtain ⟨hv0, hv3⟩ := ScoreValue_bounds result
  by_cases hguard : result = Ignore ∨ result = PositionalMiss
  · rw [show (sendResult cfg player processed s number result comboResult).state = s from by
      simp only [sendResult, if_pos hguard]]
    exact ⟨h1, h2, h3, h4, h5⟩
  · simp only [sendResult, modifyResult, if_neg hguard]
    by_cases hcnt : result &&& BaseHitsM ≠ 0
    · simp only [if_pos hcnt]
      split
      · dsimp only [accInv]
        exact ⟨by linarith, by linarith, by linarith,
          fun h0 => by rw [if_pos h0], fun hne => by rw [if_neg hne]⟩
      · dsimp only [accInv]
        exact ⟨by linarith, by linarith, by linarith,
          fun h0 => by rw [if_pos h0], fun hne => by rw [if_neg hne]⟩
    · simp only [if_neg hcnt]
      split
      · dsimp only [accInv]
        exact ⟨h1, h2, h3,
          fun h0 => by rw [if_pos h0], fun hne => by rw [if_neg hne]⟩
      · dsimp only [accInv]
        exact ⟨h1, h2, h3,
          fun h0 => by rw [if_pos h0], fun hne => by rw [if_neg hne]⟩

/-- `failInternal` preserves the accuracy invariant (it only touches the
recovery budget and the fail flag). -/
theorem accInv_failInternal (mods : Mods) (hl : Bool) (s : SubSet)
    (h : accInv s) : accInv (failInternal mods hl s).state := by
  unfold failInternal
  split
  · exact h
  · split
    · exact h
    · exact h

/-- Every aggregator event preserves the accuracy invariant. -/
theorem accInv_stepEvent (cfg : PCfg) (player : Nat) (s : SubSet) (e : PEvent)
    (h : accInv s) : accInv (stepEvent cfg player s e) := by
  cases e with
  | judge processed number result comboResult =>
      exact accInv_sendResult cfg player processed s number result comboResult h
  | failSignal => exact accInv_failInternal cfg.mods cfg.hasFailListener s h

/-- The accuracy invariant holds along every event trajectory. -/
theorem accInv_runEvents (cfg : PCfg) (player : Nat) (s : SubSet)
    (events : List PEvent) (h : accInv s) :
    accInv (runEvents cfg player s events) := by
  induction events generalizing s with
  | nil => exact h
  | cons e rest ih => exact ih _ (accInv_stepEvent cfg player s e h)

/-- C3: at every point of a run (after any sequence of judgement and fail
events from the freshly constructed sub-state), accuracy lies in [0, 100];
it equals `100 * rawScore / (numObjects * 300)` whenever at least one object
has been judged, and equals 100 whenever none has. -/
theorem accuracy_invariant (cfg : PCfg) (player : Nat) (events : List PEvent) :
    (0 ≤ (runEvents cfg player (initialSubSet cfg.mods) events).accuracy ∧
      (runEvents cfg player (initialSubSet cfg.mods) events).accuracy ≤ 100) ∧
    ((runEvents cfg player (initialSubSet cfg.mods) events).numObjects = 0 →
      (runEvents cfg player (initialSubSet cfg.mods) events).accuracy = 100) ∧
    (0 < (runEvents cfg player (initialSubSet cfg.mods) events).numObjects →
      (runEvents cfg player (initialSubSet cfg.mods) events).accuracy =
        100 * ((runEvents cfg player (initialSubSet cfg.mods) events).rawScore : ℚ) /
          (((runEvents cfg player (initialSubSet cfg.mods) events).numObjects : ℚ) * 300)) := by
  have hinit : accInv (initialSubSet cfg.mods) := by
    refine ⟨le_refl 0, by norm_num [initialSubSet], le_refl 0, fun _ => rfl,
      fun hne => absurd rfl hne⟩
  have hinv := accInv_runEvents cfg player (initialSubSet cfg.mods) events hinit
  set s := runEvents cfg player (initialSubSet cfg.mods) events with hs
  obtain ⟨h1, h2, h3, h4, h5⟩ := hinv
  refine ⟨?_, h4, fun hpos => h5 (by omega)⟩
  by_cases h0 : s.numObjects = 0
  · rw [h4 h0]
    norm_num
  · rw [h5 h0]
    have hn1 : (1 : Int) ≤ s.numObjects := by omega
    have hnQ : (1 : ℚ) ≤ (s.numObjects : ℚ) := by exact_mod_cast hn1
    have hden : (0 : ℚ) < (s.numObjects : ℚ) * 300 := by nlinarith
    have hrQ0 : (0 : ℚ) ≤ (s.rawScore : ℚ) := by exact_mod_cast h1
    have hrQ : (s.rawScore : ℚ) ≤ 300 * (s.numObjects : ℚ) := by exact_mod_cast h2
    constructor
    · apply div_nonneg _ (le_of_lt hden)
      linarith
    · rw [div_le_iff₀ hden]
      nlinarith

/-- C3 witness: after one best-outcome judgement the accuracy equals the
normalised raw score. -/
theorem accuracy_invariant_witness :
    (runEvents cfg1 0 (initialSubSet cfg1.mods)
        [PEvent.judge [] 0 Hit300 ComboResult.increase]).accuracy =
      100 * ((runEvents cfg1 0 (initialSubSet cfg1.mods)
          [PEvent.judge [] 0 Hit300 ComboResult.increase]).rawScore : ℚ) /
        (((runEvents cfg1 0 (initialSubSet cfg1.mods)
          [PEvent.judge [] 0 Hit300 ComboResult.increase]).numObjects : ℚ) * 300) :=
  (accuracy_invariant cfg1 0 [PEvent.judge [] 0 Hit300 ComboResult.increase]).2.2 (by decide)

/-- Processing a frame affects each player exactly as many times as the
player occurs in the iteration order, and only through that player own
events: the cursor map iteration order cannot leak between players. -/
theorem processPlayers_apply (cfgs : Nat → PCfg) (f : Nat → List PEvent)
    (order : List Nat) (m : Nat → SubSet) (p : Nat) :
    processPlayers cfgs f order m p =
      (fun x => runEvents (cfgs p) p x (f p))^[order.count p] (m p) := by
  induction order generalizing m with
  | nil => rfl
  | cons q rest ih =>
    by_cases hqp : q = p
    · subst hqp
      rw [processPlayers, ih, List.count_cons_self, Function.iterate_succ_apply,
        Function.update_same]
    · rw [processPlayers, ih, List.count_cons_of_ne (fun hc => hqp hc.symm),
        Function.update_noteq (fun hc => hqp hc.symm)]

/-- Processing the players of a frame in any permutation of the iteration
order yields the same post-frame state map. -/
theorem processPlayers_perm (cfgs : Nat → PCfg) (f : Nat → List PEvent)
    (o₁ o₂ : List Nat) (m : Nat → SubSet) (hperm : o₁.Perm o₂) :
    processPlayers cfgs f o₁ m = processPlayers cfgs f o₂ m := by
  funext p
  rw [processPlayers_apply, processPlayers_apply, hperm.count_eq]

/-- The engine trajectory only depends on the per-player inputs, not on the
per-frame cursor iteration orders (up to permutation). -/
theorem engineTrajectory_congr (cfgs : Nat → PCfg) :
    ∀ (frames₁ frames₂ : List ((Nat → List PEvent) × List Nat)) (m : Nat → SubSet),
      frames₁.map Prod.fst = frames₂.map Prod.fst →
      List.Forall₂ (fun a b => a.2.Perm b.2) frames₁ frames₂ →
      engineTrajectory cfgs frames₁ m = engineTrajectory cfgs frames₂ m
  | [], [], _, _, _ => rfl
  | (f₁, o₁) :: r₁, (f₂, o₂) :: r₂, m, hin, hord => by
    have hf : f₁ = f₂ := by
      have := congrArg List.head? hin
      simpa using this
    subst hf
    have hperm : o₁.Perm o₂ := by
      cases hord with
      | cons hab _ => exact hab
    have hrest : List.Forall₂ (fun a b => a.2.Perm b.2) r₁ r₂ := by
      cases hord with
      | cons _ h => exact h
    have hinr : r₁.map Prod.fst = r₂.map Prod.fst := by
      have := congrArg List.tail hin
      simpa using this
    rw [engineTrajectory, engineTrajectory,
      processPlayers_perm cfgs f₁ o₁ o₂ m hperm,
      engineTrajectory_congr cfgs r₁ r₂ _ hinr hrest]

/-- C6: determinism of the engine.  Two independently constructed engine
instances over the same configurations, both starting from the freshly
constructed per-player sub-states and driven by the identical per-frame,
per-player event streams, produce bit-identical per-player sub-state
trajectories (score, hit counts, combo, max combo, accuracy, grade, bonus
counters, fail flag) — even when the two instances iterate the cursor map in
different orders each frame. -/
theorem engine_determinism_order_independence (cfgs : Nat → PCfg)
    (frames₁ frames₂ : List ((Nat → List PEvent) × List Nat))
    (hinputs : frames₁.map Prod.fst = frames₂.map Prod.fst)
    (horders : List.Forall₂ (fun a b => a.2.Perm b.2) frames₁ frames₂) :
    engineTrajectory cfgs frames₁ (fun p => initialSubSet (cfgs p).mods) =
      engineTrajectory cfgs frames₂ (fun p => initialSubSet (cfgs p).mods) :=
  engineTrajectory_congr cfgs frames₁ frames₂ _ hinputs horders

/-- C6 witness: a two-player race over the single-circle map, replayed with
opposite cursor iteration orders, yields the same trajectory. -/
theorem engine_determinism_order_independence_witness :
    engineTrajectory (fun _ => cfg1)
        [(fun p => if p = 0 then [PEvent.judge [] 0 Hit300 ComboResult.increase]
            else [PEvent.failSignal], [0, 1])]
        (fun p => initialSubSet ((fun _ => cfg1) p).mods) =
      engineTrajectory (fun _ => cfg1)
        [(fun p => if p = 0 then [PEvent.judge [] 0 Hit300 ComboResult.increase]
            else [PEvent.failSignal], [1, 0])]
        (fun p => initialSubSet ((fun _ => cfg1) p).mods) :=
  engine_determinism_order_independence (fun _ => cfg1)
    [(fun p => if p = 0 then [PEvent.judge [] 0 Hit300 ComboResult.increase]
        else [PEvent.failSignal], [0, 1])]
    [(fun p => if p = 0 then [PEvent.judge [] 0 Hit300 ComboResult.increase]
        else [PEvent.failSignal], [1, 0])]
    rfl (List.Forall₂.cons (List.Perm.swap 1 0 []) List.Forall₂.nil)

end Danser
